import Mathlib

/-!
Verification of the VideoSDK IoT client API.

The repository ships the C header `IoTSdk/include/videosdk.h` (enumerations,
config/result structs and the seven API functions) together with two example
programs that call it.  The implementation behind the header lives in a
closed-source native library, so the spec re-specifies the core that the
header contract implies: a session manager, a peer-task controller and a
connection state machine.  Below, the enumerations and result structures are
translated directly from the header; the behavioural definitions are
modelled from the spec, as marked on each one.
-/

namespace VideoSDK

/-- `audio_codec_t` from `videosdk.h` lines 10-15: the supported codecs,
in declaration order. -/
inductive audio_codec_t
  | AUDIO_CODEC_PCMA
  | AUDIO_CODEC_PCMU
  | AUDIO_CODEC_OPUS
deriving DecidableEq, Fintype

/-- The integer value C assigns to each `audio_codec_t` enumerator:
the first enumerator is 0 and each later one is the predecessor plus one. -/
def audio_codec_t.toCode : audio_codec_t → Nat
  | .AUDIO_CODEC_PCMA => 0
  | .AUDIO_CODEC_PCMU => 1
  | .AUDIO_CODEC_OPUS => 2

/-- `result_t` from `videosdk.h` lines 27-54, in declaration order. -/
inductive result_t
  | RESULT_OK
  | SSL_CONNECT_FAILED
  | HTTP_REQUEST_FAILED
  | MEMORY_ALLOC_FAILED
  | DEVICE_NOT_SUPPORTED
  | NULL_PARAMETER
  | INIT_BOARD_FAILED
  | PEER_INIT_FAILED
  | TASK_ALREADY_STARTED
  | PUBLISH_MUTEX_CREATE_FAILED
  | AUDIO_CODEC_INIT_FAILED
  | PUBLISH_PEER_CONNECTION_FAILED
  | PUBLISH_MEMORY_ALLOC_FAILED
  | PUBLISH_TASK_CREATE_FAILED
  | SUBSCRIBE_MUTEX_CREATE_FAILED
  | SUBSCRIBE_PEER_CONNECTION_FAILED
  | SUBSCRIBE_MEMORY_ALLOC_FAILED
  | SUBSCRIBE_TASK_CREATE_FAILED
  | STOP_PUBLISH_TASK_CREATE_FAILED
  | STOP_SUBSCRIBE_TASK_CREATE_FAILED
  | CANDIDATE_PAIR_FAILED
  | DTLS_HANDSHAKE_FAILED
  | LEAVE_FAILED
  | INIT_NOT_CALLED
  | DUPLICATE_ID
deriving DecidableEq, Fintype

/-- The integer value each `result_t` enumerator carries in the header:
`RESULT_OK = 0` and the explicit initializers `3001` .. `3024`. -/
def result_t.toCode : result_t → Nat
  | .RESULT_OK => 0
  | .SSL_CONNECT_FAILED => 3001
  | .HTTP_REQUEST_FAILED => 3002
  | .MEMORY_ALLOC_FAILED => 3003
  | .DEVICE_NOT_SUPPORTED => 3004
  | .NULL_PARAMETER => 3005
  | .INIT_BOARD_FAILED => 3006
  | .PEER_INIT_FAILED => 3007
  | .TASK_ALREADY_STARTED => 3008
  | .PUBLISH_MUTEX_CREATE_FAILED => 3009
  | .AUDIO_CODEC_INIT_FAILED => 3010
  | .PUBLISH_PEER_CONNECTION_FAILED => 3011
  | .PUBLISH_MEMORY_ALLOC_FAILED => 3012
  | .PUBLISH_TASK_CREATE_FAILED => 3013
  | .SUBSCRIBE_MUTEX_CREATE_FAILED => 3014
  | .SUBSCRIBE_PEER_CONNECTION_FAILED => 3015
  | .SUBSCRIBE_MEMORY_ALLOC_FAILED => 3016
  | .SUBSCRIBE_TASK_CREATE_FAILED => 3017
  | .STOP_PUBLISH_TASK_CREATE_FAILED => 3018
  | .STOP_SUBSCRIBE_TASK_CREATE_FAILED => 3019
  | .CANDIDATE_PAIR_FAILED => 3020
  | .DTLS_HANDSHAKE_FAILED => 3021
  | .LEAVE_FAILED => 3022
  | .INIT_NOT_CALLED => 3023
  | .DUPLICATE_ID => 3024

/-- The `result_t` enumerators in the order the header declares them. -/
def result_t.declaredOrder : List result_t :=
  [.RESULT_OK, .SSL_CONNECT_FAILED, .HTTP_REQUEST_FAILED, .MEMORY_ALLOC_FAILED,
   .DEVICE_NOT_SUPPORTED, .NULL_PARAMETER, .INIT_BOARD_FAILED, .PEER_INIT_FAILED,
   .TASK_ALREADY_STARTED, .PUBLISH_MUTEX_CREATE_FAILED, .AUDIO_CODEC_INIT_FAILED,
   .PUBLISH_PEER_CONNECTION_FAILED, .PUBLISH_MEMORY_ALLOC_FAILED,
   .PUBLISH_TASK_CREATE_FAILED, .SUBSCRIBE_MUTEX_CREATE_FAILED,
   .SUBSCRIBE_PEER_CONNECTION_FAILED, .SUBSCRIBE_MEMORY_ALLOC_FAILED,
   .SUBSCRIBE_TASK_CREATE_FAILED, .STOP_PUBLISH_TASK_CREATE_FAILED,
   .STOP_SUBSCRIBE_TASK_CREATE_FAILED, .CANDIDATE_PAIR_FAILED,
   .DTLS_HANDSHAKE_FAILED, .LEAVE_FAILED, .INIT_NOT_CALLED, .DUPLICATE_ID]

/-- `create_meeting_result_t` from `videosdk.h` lines 57-61: the result code
together with `room_id`, a possibly-NULL heap string (`Option String` here). -/
structure create_meeting_result_t where
  code : result_t
  room_id : Option String
deriving DecidableEq

/-- Modelled from the spec: the outcome of the external signaling (HTTP/TLS)
call that `create_meeting` delegates to.  The transport is out of scope;
the spec says `create_meeting` "fails with SSL/HTTP-kind errors if the
signaling call cannot complete". -/
inductive SignalOutcome
  | ok (roomId : String)
  | sslFail
  | httpFail
deriving DecidableEq

/-- Modelled from the spec: `create_meeting(token)`, whose implementation is
in the closed-source library.  It issues the signaling call for the given
token and returns either `RESULT_OK` with the heap-owned room id, or the
SSL/HTTP failure code with a NULL `room_id` (no partial allocation). -/
def create_meeting (signal : String → SignalOutcome) (token : String) :
    create_meeting_result_t :=
  match signal token with
  | .ok rid => { code := .RESULT_OK, room_id := some rid }
  | .sslFail => { code := .SSL_CONNECT_FAILED, room_id := none }
  | .httpFail => { code := .HTTP_REQUEST_FAILED, room_id := none }

/-- Modelled from the spec: the per-task `ConnectionState` enumeration
(spec section 3, data model). -/
inductive ConnectionState
  | Idle
  | CandidatePairing
  | DtlsHandshake
  | Established
  | Failed
  | Closed
deriving DecidableEq, Fintype

/-- Modelled from the spec: the events that drive a task's connection
state machine (spec section 4.3). -/
inductive ConnEvent
  | taskStart
  | pairSuccess
  | pairFailure
  | handshakeSuccess
  | handshakeFailure
  | stopOrLeave
  | peerInitError
deriving DecidableEq, Fintype

/-- Modelled from the spec: `Failed` and `Closed` are the terminal
connection states. -/
def ConnectionState.isTerminal : ConnectionState → Bool
  | .Failed => true
  | .Closed => true
  | _ => false

/-- Modelled from the spec: the per-task connection state machine of
section 4.3, whose implementation is in the closed-source library.
`connStep s e` is `none` when the machine permits no transition from `s`
on `e`; otherwise it is the next state together with the error code the
transition surfaces, if any.  Terminal states permit no transition. -/
def connStep (s : ConnectionState) (e : ConnEvent) :
    Option (ConnectionState × Option result_t) :=
  if s.isTerminal then none else
  match s, e with
  | .Idle, .taskStart => some (.CandidatePairing, none)
  | .CandidatePairing, .pairSuccess => some (.DtlsHandshake, none)
  | .CandidatePairing, .pairFailure => some (.Failed, some .CANDIDATE_PAIR_FAILED)
  | .DtlsHandshake, .handshakeSuccess => some (.Established, none)
  | .DtlsHandshake, .handshakeFailure => some (.Failed, some .DTLS_HANDSHAKE_FAILED)
  | .Established, .stopOrLeave => some (.Closed, none)
  | _, .peerInitError => some (.Failed, some .PEER_INIT_FAILED)
  | _, _ => none

/-- Modelled from the spec: the state of one publish or subscribe task
(spec section 3): its peer identity, the identity it subscribes to when it
is a subscribe task, and its exclusively-owned connection state. -/
structure TaskState where
  peerId : String
  remotePeerId : Option String
  conn : ConnectionState
deriving DecidableEq

/-- Modelled from the spec: the device-wide Session (spec section 3).
`initialized` records whether `init` has succeeded; at most one publish
task and one subscribe task may be active. -/
structure SessionState where
  initialized : Bool
  pubTask : Option TaskState
  subTask : Option TaskState
deriving DecidableEq

/-- The state of a device before any call: no successful `init`, no tasks. -/
def initialState : SessionState :=
  { initialized := false, pubTask := none, subTask := none }

/-- The Ready state a successful `init` establishes: Session present, no
task started yet. -/
def readyState : SessionState :=
  { initialized := true, pubTask := none, subTask := none }

/-- Modelled from the spec: the local, transient resources a start/stop
call depends on (spec sections 4.2 and 7): per-kind mutex creation, task
memory allocation, and scheduler task creation.  Each flag records whether
the corresponding external primitive succeeds during the call. -/
structure Env where
  mutexOk : Bool
  allocOk : Bool
  taskCreateOk : Bool
deriving DecidableEq

/-- `init_config_t` from `videosdk.h` lines 18-24.  The `char *` fields are
`Option String` (NULL is `none`); `audioCodec` is the raw C integer, since
a caller may pass a value outside the declared enumerators. -/
structure init_config_t where
  meetingID : Option String
  token : Option String
  displayName : Option String
  audioCodec : Nat
deriving DecidableEq

/-- Modelled from the spec: the supported codec set {PCMA, PCMU, OPUS},
i.e. the raw values 0, 1, 2 of `audio_codec_t` (spec section 4.4). -/
def supportedCodec (c : Nat) : Bool :=
  c = audio_codec_t.toCode .AUDIO_CODEC_PCMA ||
  c = audio_codec_t.toCode .AUDIO_CODEC_PCMU ||
  c = audio_codec_t.toCode .AUDIO_CODEC_OPUS

/-- Modelled from the spec: the external primitives `init` depends on
(spec section 4.1): board/platform initialization and audio codec setup. -/
structure InitEnv where
  boardOk : Bool
  codecSetupOk : Bool
deriving DecidableEq

/-- Modelled from the spec: `init(cfg)` (spec sections 4.1 and 4.4), whose
implementation is in the closed-source library.  It fails with
`NULL_PARAMETER` if a required field is NULL, with `DEVICE_NOT_SUPPORTED`
if the requested codec is outside the supported set or the platform cannot
be initialized, and with `AUDIO_CODEC_INIT_FAILED` if codec setup fails;
on success the Session becomes Ready with no task yet started.  Failures
leave the state unchanged. -/
def init (s : SessionState) (cfg : init_config_t) (env : InitEnv) :
    result_t × SessionState :=
  if cfg.meetingID = none || cfg.token = none || cfg.displayName = none then
    (.NULL_PARAMETER, s)
  else if !supportedCodec cfg.audioCodec then
    (.DEVICE_NOT_SUPPORTED, s)
  else if !env.boardOk then
    (.DEVICE_NOT_SUPPORTED, s)
  else if !env.codecSetupOk then
    (.AUDIO_CODEC_INIT_FAILED, s)
  else
    (.RESULT_OK, readyState)

/-- Modelled from the spec: `startPublishAudio(publisherId)` (spec
section 4.2), whose implementation is in the closed-source library.
Before a successful `init` it fails with `INIT_NOT_CALLED` (section 4.1);
then, in order: mutex acquisition, duplicate-start check, identity
collision with the active subscriber, task memory allocation, scheduler
task creation.  On success a fresh task instance starts in `Idle`.
Failures leave the state unchanged. -/
def startPublishAudio (s : SessionState) (env : Env) (publisherId : String) :
    result_t × SessionState :=
  if !s.initialized then (.INIT_NOT_CALLED, s)
  else if !env.mutexOk then (.PUBLISH_MUTEX_CREATE_FAILED, s)
  else if s.pubTask.isSome then (.TASK_ALREADY_STARTED, s)
  else if (s.subTask.map TaskState.peerId) = some publisherId then
    (.DUPLICATE_ID, s)
  else if !env.allocOk then (.PUBLISH_MEMORY_ALLOC_FAILED, s)
  else if !env.taskCreateOk then (.PUBLISH_TASK_CREATE_FAILED, s)
  else
    (.RESULT_OK,
     { s with pubTask := some { peerId := publisherId, remotePeerId := none,
                                conn := .Idle } })

/-- Modelled from the spec: `startSubscribeAudio(subscriberId,
subscribeToId)` (spec section 4.2), symmetric to publish with the
SUBSCRIBE error codes.  On success a fresh task instance starts in
`Idle`.  Failures leave the state unchanged. -/
def startSubscribeAudio (s : SessionState) (env : Env)
    (subscriberId : String) (subscribeToId : Option String) :
    result_t × SessionState :=
  if !s.initialized then (.INIT_NOT_CALLED, s)
  else if !env.mutexOk then (.SUBSCRIBE_MUTEX_CREATE_FAILED, s)
  else if s.subTask.isSome then (.TASK_ALREADY_STARTED, s)
  else if (s.pubTask.map TaskState.peerId) = some subscriberId then
    (.DUPLICATE_ID, s)
  else if !env.allocOk then (.SUBSCRIBE_MEMORY_ALLOC_FAILED, s)
  else if !env.taskCreateOk then (.SUBSCRIBE_TASK_CREATE_FAILED, s)
  else
    (.RESULT_OK,
     { s with subTask := some { peerId := subscriberId,
                                remotePeerId := subscribeToId,
                                conn := .Idle } })

/-- Modelled from the spec: `stopPublishAudio()` (spec section 4.2), whose
implementation is in the closed-source library.  Before a successful
`init` it fails with `INIT_NOT_CALLED`.  Stopping an absent or
already-stopped task is a no-op returning `RESULT_OK`; stopping an active
task schedules a stop task, failing with
`STOP_PUBLISH_TASK_CREATE_FAILED` if the scheduler rejects it, and on
success destroys the task. -/
def stopPublishAudio (s : SessionState) (env : Env) :
    result_t × SessionState :=
  if !s.initialized then (.INIT_NOT_CALLED, s)
  else
    match s.pubTask with
    | none => (.RESULT_OK, s)
    | some _ =>
      if !env.taskCreateOk then (.STOP_PUBLISH_TASK_CREATE_FAILED, s)
      else (.RESULT_OK, { s with pubTask := none })

/-- Modelled from the spec: `stopSubscribeAudio()` (spec section 4.2),
symmetric to `stopPublishAudio` with the SUBSCRIBE error code. -/
def stopSubscribeAudio (s : SessionState) (env : Env) :
    result_t × SessionState :=
  if !s.initialized then (.INIT_NOT_CALLED, s)
  else
    match s.subTask with
    | none => (.RESULT_OK, s)
    | some _ =>
      if !env.taskCreateOk then (.STOP_SUBSCRIBE_TASK_CREATE_FAILED, s)
      else (.RESULT_OK, { s with subTask := none })

/-- Modelled from the spec: `leave()` (spec sections 4.1 and 7), whose
implementation is in the closed-source library.  Before a successful
`init` it fails with `INIT_NOT_CALLED`.  It stops all active tasks
idempotently and releases the Session; if teardown cannot complete
cleanly it reports `LEAVE_FAILED`, but tasks are still torn down to avoid
a resource leak. -/
def leave (s : SessionState) (env : Env) : result_t × SessionState :=
  if !s.initialized then (.INIT_NOT_CALLED, s)
  else if !env.taskCreateOk then
    (.LEAVE_FAILED, { s with pubTask := none, subTask := none })
  else
    (.RESULT_OK, initialState)

/-- One call against the Session, with the external outcomes it depends
on fixed as arguments. -/
inductive Op
  | opInit (cfg : init_config_t) (env : InitEnv)
  | opStartPub (env : Env) (publisherId : String)
  | opStartSub (env : Env) (subscriberId : String) (subscribeToId : Option String)
  | opStopPub (env : Env)
  | opStopSub (env : Env)
  | opLeave (env : Env)

/-- Execute one call: the returned code and the next Session state. -/
def execOp (s : SessionState) : Op → result_t × SessionState
  | .opInit cfg env => init s cfg env
  | .opStartPub env pid => startPublishAudio s env pid
  | .opStartSub env sid toId => startSubscribeAudio s env sid toId
  | .opStopPub env => stopPublishAudio s env
  | .opStopSub env => stopSubscribeAudio s env
  | .opLeave env => leave s env

/-- Run a sequence of calls, keeping only the final state. -/
def runOps (s : SessionState) : List Op → SessionState
  | [] => s
  | op :: rest => runOps (execOp s op).2 rest

/-- Whether an `Op` is an `init` call. -/
def Op.isInit : Op → Bool
  | .opInit _ _ => true
  | _ => false

/-- Whether some `init` call in the sequence, run from `s`, returns
`RESULT_OK`. -/
def initSucceededDuring (s : SessionState) : List Op → Bool
  | [] => false
  | op :: rest =>
    (op.isInit && (execOp s op).1 = .RESULT_OK) ||
    initSucceededDuring (execOp s op).2 rest

/-! ## Helper lemmas -/

/-- `init` either succeeds and yields the Ready state, or fails and leaves
the state unchanged. -/
theorem init_cases (s : SessionState) (cfg : init_config_t) (env : InitEnv) :
    ((init s cfg env).1 = .RESULT_OK ∧ (init s cfg env).2 = readyState) ∨
    ((init s cfg env).1 ≠ .RESULT_OK ∧ (init s cfg env).2 = s) := by
  unfold init
  repeat' split
  all_goals simp

/-- `startPublishAudio` either succeeds — which requires every local
resource to be available — installing a fresh publish task in `Idle`, or
fails and leaves the state unchanged. -/
theorem startPublishAudio_cases (s : SessionState) (env : Env) (pid : String) :
    ((startPublishAudio s env pid).1 = .RESULT_OK ∧
      env.mutexOk = true ∧ env.allocOk = true ∧ env.taskCreateOk = true ∧
      (startPublishAudio s env pid).2 =
        { s with pubTask := some ⟨pid, none, .Idle⟩ }) ∨
    ((startPublishAudio s env pid).1 ≠ .RESULT_OK ∧
      (startPublishAudio s env pid).2 = s) := by
  unfold startPublishAudio
  repeat' split
  all_goals simp_all

/-- `startSubscribeAudio` either succeeds — which requires every local
resource to be available — installing a fresh subscribe task in `Idle`,
or fails and leaves the state unchanged. -/
theorem startSubscribeAudio_cases (s : SessionState) (env : Env)
    (sid : String) (toId : Option String) :
    ((startSubscribeAudio s env sid toId).1 = .RESULT_OK ∧
      env.mutexOk = true ∧ env.allocOk = true ∧ env.taskCreateOk = true ∧
      (startSubscribeAudio s env sid toId).2 =
        { s with subTask := some ⟨sid, toId, .Idle⟩ }) ∨
    ((startSubscribeAudio s env sid toId).1 ≠ .RESULT_OK ∧
      (startSubscribeAudio s env sid toId).2 = s) := by
  unfold startSubscribeAudio
  repeat' split
  all_goals simp_all

/-- A call that is not a successful `init` cannot mark the Session
initialized. -/
theorem execOp_keeps_uninitialized (s : SessionState) (op : Op)
    (hs : s.initialized = false)
    (h : ¬(op.isInit = true ∧ (execOp s op).1 = .RESULT_OK)) :
    (execOp s op).2.initialized = false := by
  cases op with
  | opInit cfg env =>
    rcases init_cases s cfg env with ⟨hok, -⟩ | ⟨-, hst⟩
    · exact absurd ⟨rfl, hok⟩ h
    · simpa [execOp, hst] using hs
  | opStartPub env pid => simp [execOp, startPublishAudio, hs]
  | opStartSub env sid toId => simp [execOp, startSubscribeAudio, hs]
  | opStopPub env => simp [execOp, stopPublishAudio, hs]
  | opStopSub env => simp [execOp, stopSubscribeAudio, hs]
  | opLeave env => simp [execOp, leave, hs]

/-- Running a sequence that contains no successful `init` from an
uninitialized state leaves the Session uninitialized. -/
theorem runOps_keeps_uninitialized (ops : List Op) (s : SessionState)
    (hs : s.initialized = false) (h : initSucceededDuring s ops = false) :
    (runOps s ops).initialized = false := by
  induction ops generalizing s with
  | nil => exact hs
  | cons op rest ih =>
    simp only [initSucceededDuring, Bool.or_eq_false_iff,
      Bool.and_eq_false_iff] at h
    refine ih (execOp s op).2 ?_ h.2
    refine execOp_keeps_uninitialized s op hs ?_
    rintro ⟨h1, h2⟩
    rcases h.1 with h3 | h3
    · simp [h1] at h3
    · simp [h2] at h3

/-! ## Claims -/

/-- C9: the result code enumeration assigns 0 to `RESULT_OK` and the
consecutive integers 3001 .. 3024 to the named failure codes in their
declaration order, with every enumerator listed exactly once, and the
audio codec enumeration assigns PCMA = 0, PCMU = 1, OPUS = 2. -/
theorem spec_C9_enum_values_verbatim :
    result_t.declaredOrder.map result_t.toCode =
      [0, 3001, 3002, 3003, 3004, 3005, 3006, 3007, 3008, 3009, 3010, 3011,
       3012, 3013, 3014, 3015, 3016, 3017, 3018, 3019, 3020, 3021, 3022,
       3023, 3024] ∧
    result_t.declaredOrder.Nodup ∧
    (∀ r : result_t, r ∈ result_t.declaredOrder) ∧
    audio_codec_t.toCode .AUDIO_CODEC_PCMA = 0 ∧
    audio_codec_t.toCode .AUDIO_CODEC_PCMU = 1 ∧
    audio_codec_t.toCode .AUDIO_CODEC_OPUS = 2 := by
  refine ⟨rfl, by decide, by decide, rfl, rfl, rfl⟩

/-- C10: `create_meeting` returns a non-null `room_id` exactly when its
code is `RESULT_OK`, so the null test the two example `meeting_task`
functions perform is a sound and complete success test. -/
theorem spec_C10_room_id_iff_ok (signal : String → SignalOutcome)
    (token : String) :
    (create_meeting signal token).room_id.isSome = true ↔
    (create_meeting signal token).code = .RESULT_OK := by
  cases h : signal token <;> simp [create_meeting, h]

/-- C7: when the signaling call rejects the token — as it does for every
invalid token — `create_meeting` returns a non-OK code and a null
`room_id`, leaking no partial allocation. -/
theorem spec_C7_invalid_token_create_meeting (signal : String → SignalOutcome)
    (token : String) (hinvalid : ∀ rid, signal token ≠ SignalOutcome.ok rid) :
    (create_meeting signal token).code ≠ .RESULT_OK ∧
    (create_meeting signal token).room_id = none := by
  cases h : signal token with
  | ok rid => exact absurd h (hinvalid rid)
  | sslFail => simp [create_meeting, h]
  | httpFail => simp [create_meeting, h]

/-- Witness for C7 at a signaling layer that rejects every token. -/
theorem spec_C7_invalid_token_create_meeting_witness :
    (create_meeting (fun _ => SignalOutcome.sslFail) "bad").code ≠
      .RESULT_OK ∧
    (create_meeting (fun _ => SignalOutcome.sslFail) "bad").room_id = none :=
  spec_C7_invalid_token_create_meeting (fun _ => .sslFail) "bad"
    (fun _ h => SignalOutcome.noConfusion h)

set_option maxRecDepth 8000 in
/-- C1: the connection state machine permits exactly the listed
transitions — `Idle` to `CandidatePairing` on task start,
`CandidatePairing` to `DtlsHandshake` on successful pair or to `Failed`
surfacing `CANDIDATE_PAIR_FAILED`, `DtlsHandshake` to `Established` on
successful handshake or to `Failed` surfacing `DTLS_HANDSHAKE_FAILED`,
`Established` to `Closed` on stop or leave, and any non-terminal state to
`Failed` surfacing `PEER_INIT_FAILED` — no transition leaves the terminal
states `Failed` and `Closed`, and a fresh `startPublishAudio` /
`startSubscribeAudio` call constructs a new task instance in `Idle`
rather than reusing state. -/
theorem spec_C1_connection_state_machine :
    (∀ s e out, connStep s e = some out ↔
      ((s = .Idle ∧ e = .taskStart ∧ out = (.CandidatePairing, none)) ∨
       (s = .CandidatePairing ∧ e = .pairSuccess ∧
         out = (.DtlsHandshake, none)) ∨
       (s = .CandidatePairing ∧ e = .pairFailure ∧
         out = (.Failed, some .CANDIDATE_PAIR_FAILED)) ∨
       (s = .DtlsHandshake ∧ e = .handshakeSuccess ∧
         out = (.Established, none)) ∨
       (s = .DtlsHandshake ∧ e = .handshakeFailure ∧
         out = (.Failed, some .DTLS_HANDSHAKE_FAILED)) ∨
       (s = .Established ∧ e = .stopOrLeave ∧ out = (.Closed, none)) ∨
       (s.isTerminal = false ∧ e = .peerInitError ∧
         out = (.Failed, some .PEER_INIT_FAILED)))) ∧
    (∀ s e, ConnectionState.isTerminal s = true → connStep s e = none) ∧
    (∀ s env pid, (startPublishAudio s env pid).1 = .RESULT_OK →
      (startPublishAudio s env pid).2.pubTask =
        some ⟨pid, none, .Idle⟩) ∧
    (∀ s env sid toId, (startSubscribeAudio s env sid toId).1 = .RESULT_OK →
      (startSubscribeAudio s env sid toId).2.subTask =
        some ⟨sid, toId, .Idle⟩) := by
  refine ⟨?_, by decide, ?_, ?_⟩
  · intro s e
    cases s <;> cases e <;> decide
  · intro s env pid h
    rcases startPublishAudio_cases s env pid with ⟨-, -, -, -, hst⟩ | ⟨hne, -⟩
    · simp [hst]
    · exact absurd h hne
  · intro s env sid toId h
    rcases startSubscribeAudio_cases s env sid toId with
      ⟨-, -, -, -, hst⟩ | ⟨hne, -⟩
    · simp [hst]
    · exact absurd h hne

/-- Witness for C1: a terminal state admits no transition, the start
transition exists, and a successful start from the Ready state installs a
fresh `Idle` task. -/
theorem spec_C1_connection_state_machine_witness :
    connStep .Failed .taskStart = none ∧
    connStep .Idle .taskStart = some (.CandidatePairing, none) ∧
    (startPublishAudio readyState ⟨true, true, true⟩ "p1").2.pubTask =
      some ⟨"p1", none, .Idle⟩ :=
  ⟨spec_C1_connection_state_machine.2.1 .Failed .taskStart rfl,
   (spec_C1_connection_state_machine.1 .Idle .taskStart
     (.CandidatePairing, none)).mpr (Or.inl ⟨rfl, rfl, rfl⟩),
   spec_C1_connection_state_machine.2.2.1 readyState ⟨true, true, true⟩ "p1"
     rfl⟩

/-- C2: after any sequence of calls containing no successful `init`,
every publish, subscribe, stop and leave call returns `INIT_NOT_CALLED`,
whose code is 3023. -/
theorem spec_C2_init_not_called_before_init (ops : List Op)
    (h : initSucceededDuring initialState ops = false) :
    (∀ env pid, (startPublishAudio (runOps initialState ops) env pid).1 =
      .INIT_NOT_CALLED) ∧
    (∀ env sid toId,
      (startSubscribeAudio (runOps initialState ops) env sid toId).1 =
        .INIT_NOT_CALLED) ∧
    (∀ env, (stopPublishAudio (runOps initialState ops) env).1 =
      .INIT_NOT_CALLED) ∧
    (∀ env, (stopSubscribeAudio (runOps initialState ops) env).1 =
      .INIT_NOT_CALLED) ∧
    (∀ env, (leave (runOps initialState ops) env).1 = .INIT_NOT_CALLED) ∧
    result_t.toCode .INIT_NOT_CALLED = 3023 := by
  have hun : (runOps initialState ops).initialized = false :=
    runOps_keeps_uninitialized ops initialState rfl h
  refine ⟨?_, ?_, ?_, ?_, ?_, rfl⟩
  · intro env pid; simp [startPublishAudio, hun]
  · intro env sid toId; simp [startSubscribeAudio, hun]
  · intro env; simp [stopPublishAudio, hun]
  · intro env; simp [stopSubscribeAudio, hun]
  · intro env; simp [leave, hun]

/-- Witness for C2 after a failed `init` (NULL parameters): the calls
still report `INIT_NOT_CALLED`. -/
theorem spec_C2_init_not_called_before_init_witness :
    (startPublishAudio
        (runOps initialState [.opInit ⟨none, none, none, 2⟩ ⟨true, true⟩])
        ⟨true, true, true⟩ "p1").1 = .INIT_NOT_CALLED ∧
    (leave (runOps initialState [.opInit ⟨none, none, none, 2⟩ ⟨true, true⟩])
        ⟨true, true, true⟩).1 = .INIT_NOT_CALLED :=
  ⟨(spec_C2_init_not_called_before_init
      [.opInit ⟨none, none, none, 2⟩ ⟨true, true⟩] rfl).1 ⟨true, true, true⟩
      "p1",
   (spec_C2_init_not_called_before_init
      [.opInit ⟨none, none, none, 2⟩ ⟨true, true⟩] rfl).2.2.2.2.1
      ⟨true, true, true⟩⟩

/-- C3: after a successful `init`, the first `startPublishAudio` with a
fresh publisherId returns `RESULT_OK`, and a second one with the same
publisherId before any stop returns `TASK_ALREADY_STARTED`, whose code is
3008. -/
theorem spec_C3_publish_starts_once (s : SessionState) (cfg : init_config_t)
    (ienv : InitEnv) (env env2 : Env) (pid : String)
    (hinit : (init s cfg ienv).1 = .RESULT_OK)
    (hm : env.mutexOk = true) (ha : env.allocOk = true)
    (ht : env.taskCreateOk = true) (hm2 : env2.mutexOk = true) :
    (startPublishAudio (init s cfg ienv).2 env pid).1 = .RESULT_OK ∧
    (startPublishAudio (startPublishAudio (init s cfg ienv).2 env pid).2
        env2 pid).1 = .TASK_ALREADY_STARTED ∧
    result_t.toCode .TASK_ALREADY_STARTED = 3008 := by
  rcases init_cases s cfg ienv with ⟨-, hst⟩ | ⟨hne, -⟩
  · rw [hst]
    refine ⟨?_, ?_, rfl⟩
    · simp [startPublishAudio, readyState, hm, ha, ht]
    · simp [startPublishAudio, readyState, hm, ha, ht, hm2]
  · exact absurd hinit hne

/-- Witness for C3 on the section-8 scenario: `init` with OPUS then
`startPublishAudio "p1"` twice. -/
theorem spec_C3_publish_starts_once_witness :
    (startPublishAudio
        (init initialState ⟨some "m1", some "t", some "d", 2⟩ ⟨true, true⟩).2
        ⟨true, true, true⟩ "p1").1 = .RESULT_OK ∧
    (startPublishAudio
        (startPublishAudio
          (init initialState ⟨some "m1", some "t", some "d", 2⟩
            ⟨true, true⟩).2 ⟨true, true, true⟩ "p1").2
        ⟨true, true, true⟩ "p1").1 = .TASK_ALREADY_STARTED ∧
    result_t.toCode .TASK_ALREADY_STARTED = 3008 :=
  spec_C3_publish_starts_once initialState ⟨some "m1", some "t", some "d", 2⟩
    ⟨true, true⟩ ⟨true, true, true⟩ ⟨true, true, true⟩ "p1" rfl rfl rfl rfl
    rfl

/-- C4: in every initialized state, `stopPublishAudio` called twice in a
row returns `RESULT_OK` both times, including when no publish task was
ever started or it was already stopped. -/
theorem spec_C4_stop_publish_idempotent (s : SessionState) (env env2 : Env)
    (hinit : s.initialized = true) (ht : env.taskCreateOk = true) :
    (stopPublishAudio s env).1 = .RESULT_OK ∧
    (stopPublishAudio (stopPublishAudio s env).2 env2).1 = .RESULT_OK := by
  cases hp : s.pubTask <;> simp [stopPublishAudio, hinit, ht, hp]

/-- Witness for C4 from a state with an active publish task. -/
theorem spec_C4_stop_publish_idempotent_witness :
    (stopPublishAudio ⟨true, some ⟨"p1", none, .Established⟩, none⟩
        ⟨true, true, true⟩).1 = .RESULT_OK ∧
    (stopPublishAudio
        (stopPublishAudio ⟨true, some ⟨"p1", none, .Established⟩, none⟩
          ⟨true, true, true⟩).2 ⟨true, true, true⟩).1 = .RESULT_OK :=
  spec_C4_stop_publish_idempotent
    ⟨true, some ⟨"p1", none, .Established⟩, none⟩ ⟨true, true, true⟩
    ⟨true, true, true⟩ rfl rfl

/-- C5: in a session with an active publish task, `startSubscribeAudio`
with a subscriberId equal to the active publisherId returns
`DUPLICATE_ID`, whose code is 3024. -/
theorem spec_C5_duplicate_id (s : SessionState) (env : Env) (t : TaskState)
    (toId : Option String)
    (hinit : s.initialized = true) (hpub : s.pubTask = some t)
    (hsub : s.subTask = none) (hm : env.mutexOk = true) :
    (startSubscribeAudio s env t.peerId toId).1 = .DUPLICATE_ID ∧
    result_t.toCode .DUPLICATE_ID = 3024 := by
  refine ⟨?_, rfl⟩
  simp [startSubscribeAudio, hinit, hm, hsub, hpub]

/-- Witness for C5: subscribing as "p1" while "p1" is the active
publisher. -/
theorem spec_C5_duplicate_id_witness :
    (startSubscribeAudio ⟨true, some ⟨"p1", none, .Established⟩, none⟩
        ⟨true, true, true⟩ "p1" none).1 = .DUPLICATE_ID ∧
    result_t.toCode .DUPLICATE_ID = 3024 :=
  spec_C5_duplicate_id ⟨true, some ⟨"p1", none, .Established⟩, none⟩
    ⟨true, true, true⟩ ⟨"p1", none, .Established⟩ none rfl rfl rfl rfl

/-- C6: when a start call fails on a local/transient resource (mutex
creation, memory allocation or task creation), the Session state after
the call equals the state before it — no partial task is left running. -/
theorem spec_C6_local_failure_preserves_state (s : SessionState) (env : Env)
    (pid sid : String) (toId : Option String)
    (h : env.mutexOk = false ∨ env.allocOk = false ∨
      env.taskCreateOk = false) :
    (startPublishAudio s env pid).2 = s ∧
    (startSubscribeAudio s env sid toId).2 = s := by
  constructor
  · rcases startPublishAudio_cases s env pid with
      ⟨-, hm, ha, ht, -⟩ | ⟨-, hst⟩
    · rcases h with h | h | h <;> simp_all
    · exact hst
  · rcases startSubscribeAudio_cases s env sid toId with
      ⟨-, hm, ha, ht, -⟩ | ⟨-, hst⟩
    · rcases h with h | h | h <;> simp_all
    · exact hst

/-- Witness for C6: with mutex creation failing, neither start call
changes the Ready state. -/
theorem spec_C6_local_failure_preserves_state_witness :
    (startPublishAudio readyState ⟨false, true, true⟩ "p1").2 = readyState ∧
    (startSubscribeAudio readyState ⟨false, true, true⟩ "s1" (some "p2")).2 =
      readyState :=
  spec_C6_local_failure_preserves_state readyState ⟨false, true, true⟩ "p1"
    "s1" (some "p2") (Or.inl rfl)

/-- C8: `init` with an audioCodec outside the supported set {PCMA, PCMU,
OPUS} returns `DEVICE_NOT_SUPPORTED` (code 3004) and leaves the state
unchanged — no connection state machine is armed and no task is
started. -/
theorem spec_C8_unsupported_codec_fails_fast (s : SessionState)
    (cfg : init_config_t) (env : InitEnv)
    (hm : cfg.meetingID ≠ none) (ht : cfg.token ≠ none)
    (hd : cfg.displayName ≠ none)
    (hc : supportedCodec cfg.audioCodec = false) :
    (init s cfg env).1 = .DEVICE_NOT_SUPPORTED ∧ (init s cfg env).2 = s ∧
    result_t.toCode .DEVICE_NOT_SUPPORTED = 3004 := by
  refine ⟨?_, ?_, rfl⟩ <;> simp [init, hm, ht, hd, hc]

/-- Witness for C8 at the raw codec value 7, outside the enumeration. -/
theorem spec_C8_unsupported_codec_fails_fast_witness :
    (init initialState ⟨some "m", some "t", some "d", 7⟩ ⟨true, true⟩).1 =
      .DEVICE_NOT_SUPPORTED ∧
    (init initialState ⟨some "m", some "t", some "d", 7⟩ ⟨true, true⟩).2 =
      initialState ∧
    result_t.toCode .DEVICE_NOT_SUPPORTED = 3004 :=
  spec_C8_unsupported_codec_fails_fast initialState
    ⟨some "m", some "t", some "d", 7⟩ ⟨true, true⟩
    (fun h => Option.noConfusion h) (fun h => Option.noConfusion h)
    (fun h => Option.noConfusion h) rfl

end VideoSDK
